import Mathlib

/-!
Verification of the JSON-RPC service dispatcher in `json_rpc.py`.

The embedding is a shallow one: JSON documents become the inductive `JVal`,
Python dictionaries become association lists of string keys, Python exceptions
become the inductive `PyExc`, and every fallible operation of the source is a
Lean function into `Except PyExc _`.  Registered callables are arbitrary Lean
functions from a call shape (positional or keyword arguments) to
`Except PyExc JVal`, so a method may "raise" any exception.

The external `simplejson` codec is not part of the repository: `handle_request`
therefore takes the decoding function as an explicit parameter
(`from_json : String -> Except PyExc JVal`).  Serialising a `JVal` back to text
cannot fail (every value in the model is a JSON value), so the encode-failure
rescue branch of `handle_request` (source lines 273-287) is unreachable in the
model and `handle_request` returns the response document itself.
-/

set_option maxHeartbeats 1000000

/-- A JSON value, as produced by decoding a request body. -/
inductive JVal where
  | null
  | bool (b : Bool)
  | int (n : Int)
  | str (s : String)
  | arr (xs : List JVal)
  | obj (kvs : List (String × JVal))

/-- Python exceptions that the dispatcher's code paths can raise or observe. -/
inductive PyExc where
  | keyError (k : String)
  | typeError (msg : String)
  | nameError (msg : String)
  | attributeError (msg : String)
  | unicodeEncodeError
  | valueError (msg : String)
  | appError (msg : String)
deriving BEq, DecidableEq

/-- The shape with which a registered callable is invoked:
`fn(*args)` passes positional arguments, `fn(**kwargs)` passes keyword
arguments. -/
inductive Call where
  | pos (args : List JVal)
  | kw (kwargs : List (String × JVal))

/-- A registered callable: it may return a value or raise any exception. -/
def MethodImpl : Type := Call → Except PyExc JVal

/-- `True` for ASCII-only strings; `str(k)` on a unicode key succeeds exactly
when every character is ASCII, and returns the same character content. -/
def is_ascii_str (s : String) : Bool :=
  s.toList.all (fun c => c.toNat < 128)

/-- Python equality of a JSON value with the string constant `"2.0"`
(source line 244): true exactly for that string. -/
def is_twozero : JVal → Bool
  | .str s => s == "2.0"
  | _ => false

/-- The Python test `v is None` (source line 265): true exactly for null. -/
def is_py_none : JVal → Bool
  | .null => true
  | _ => false

/-- Substring test, the meaning of `key in s` for a Python string `s`. -/
def str_contains (s pat : String) : Bool :=
  (s.splitOn pat).length != 1

/-- The Python expression `key in v` (source lines 243, 245, 259, 294):
key membership for a dict, substring test for a string, element membership
for a list, and a `TypeError` for non-iterable values. -/
def py_in (key : String) (v : JVal) : Except PyExc Bool :=
  match v with
  | .obj kvs => .ok (kvs.any (fun kv => kv.1 == key))
  | .str s => .ok (str_contains s key)
  | .arr xs => .ok (xs.any (fun x => match x with
                                     | .str s => s == key
                                     | _ => false))
  | _ => .error (.typeError "argument is not iterable")

/-- The Python expression `v[key]` with a string key: dict lookup raising
`KeyError` when the key is absent, and a `TypeError` on every non-dict. -/
def py_subscript (v : JVal) (key : String) : Except PyExc JVal :=
  match v with
  | .obj kvs =>
    match kvs.find? (fun kv => kv.1 == key) with
    | some kv => .ok kv.2
    | none => .error (.keyError key)
  | .str _ => .error (.typeError "string indices must be integers")
  | .arr _ => .error (.typeError "list indices must be integers")
  | _ => .error (.typeError "object is not subscriptable")

/-- The Python expression `v.get(key, dflt)`: total on dicts, and an
`AttributeError` on every other value (only dicts have a `get` method). -/
def py_get (v : JVal) (key : String) (dflt : JVal) : Except PyExc JVal :=
  match v with
  | .obj kvs =>
    match kvs.find? (fun kv => kv.1 == key) with
    | some kv => .ok kv.2
    | none => .ok dflt
  | _ => .error (.attributeError "object has no attribute get")

/-- Whether a JSON value is hashable in Python: lists and dicts are not,
so using one as a dict-lookup key raises `TypeError`. -/
def hashable : JVal → Bool
  | .arr _ => false
  | .obj _ => false
  | _ => true

/-- The Python expression `d.get(k, None)` on a method mapping `d` whose keys
are strings: raises `TypeError` for an unhashable key, otherwise returns the
entry or `none`. -/
def dict_get (d : List (String × MethodImpl)) (k : JVal) :
    Except PyExc (Option MethodImpl) :=
  match k with
  | .arr _ => .error (.typeError "unhashable type: list")
  | .obj _ => .error (.typeError "unhashable type: dict")
  | .str s => .ok ((d.find? (fun kv => kv.1 == s)).map (fun kv => kv.2))
  | _ => .ok none

/-- `str.format` rendering of a JSON value, used only to build the `data`
strings of error objects.  Exact for scalars (the only case a claim inspects);
the rendering of containers is abbreviated, no claim depends on it. -/
def py_format : JVal → String
  | .null => "None"
  | .bool true => "True"
  | .bool false => "False"
  | .int n => toString n
  | .str s => s
  | .arr _ => "[...]"
  | .obj _ => "\x7b...\x7d"

/-- A short rendering of an exception, standing for Python's `str(e)`. -/
def exc_str : PyExc → String
  | .keyError k => k
  | .typeError msg => msg
  | .nameError msg => msg
  | .attributeError msg => msg
  | .unicodeEncodeError => "unicode encode error"
  | .valueError msg => msg
  | .appError msg => msg

/-- Stands for `traceback.format_exc()`; the text is never inspected. -/
def format_exc (_ : PyExc) : String :=
  "Traceback (most recent call last):"

/-- The `data` payload attached to INTERNAL_ERROR responses
(source lines 348-352, 399-403). -/
def exc_data (e : PyExc) : JVal :=
  JVal.obj [("exception", JVal.str (exc_str e)),
            ("traceback", JVal.str (format_exc e))]

-- Error codes (source lines 37-41).
def PARSE_ERROR : Int := -32700
def INVALID_REQUEST : Int := -32600
def METHOD_NOT_FOUND : Int := -32601
def INVALID_METHOD_PARAMS : Int := -32602
def INTERNAL_ERROR : Int := -32603

/-- The `ERROR_MESSAGE` table (source lines 44-50). -/
def ERROR_MESSAGE (code : Int) : Option String :=
  if code == PARSE_ERROR then some "Parse error."
  else if code == INVALID_REQUEST then some "Invalid Request."
  else if code == METHOD_NOT_FOUND then some "Method not found."
  else if code == INVALID_METHOD_PARAMS then some "Invalid parameters."
  else if code == INTERNAL_ERROR then some "Internal error."
  else none

/-- `make_error` (source lines 54-65): unknown codes are remapped to
INTERNAL_ERROR, `data` is attached only when provided. -/
def make_error (code : Int) (data : Option JVal) : JVal :=
  let code := match ERROR_MESSAGE code with
              | none => INTERNAL_ERROR
              | some _ => code
  let msg := (ERROR_MESSAGE code).getD "Internal error."
  JVal.obj ([("code", JVal.int code), ("message", JVal.str msg)] ++
    (match data with
     | some d => [("data", d)]
     | none => []))

/-- `dict_key_clean` (source lines 68-77): converts every key of a params
dict with `str(k)`, which raises `UnicodeEncodeError` on the first key with a
non-ASCII character and is the identity on ASCII keys. -/
def dict_key_clean (d : List (String × JVal)) :
    Except PyExc (List (String × JVal)) :=
  if d.all (fun kv => is_ascii_str kv.1) then .ok d
  else .error .unicodeEncodeError

/-- `fn(**kwargs)`: CPython accepts (and converts) ASCII-only unicode keyword
names and raises `TypeError` on non-ASCII ones, before entering `fn`. -/
def py_apply_kw (fn : MethodImpl) (kvs : List (String × JVal)) :
    Except PyExc JVal :=
  if kvs.all (fun kv => is_ascii_str kv.1) then fn (Call.kw kvs)
  else .error (.typeError "keywords must be strings")

/-- `fn(*args)`: a list or tuple unpacks to its elements, a string unpacks to
its characters, a dict unpacks to its keys, and every other value raises
`TypeError` before `fn` is entered. -/
def py_apply_star (fn : MethodImpl) (args : JVal) : Except PyExc JVal :=
  match args with
  | .arr xs => fn (Call.pos xs)
  | .str s => fn (Call.pos (s.toList.map (fun c => JVal.str c.toString)))
  | .obj kvs => fn (Call.pos (kvs.map (fun kv => JVal.str kv.1)))
  | _ => .error (.typeError "argument after star must be an iterable")

/-- The dispatcher's state: the three method mappings and the `last_result`
slot (`instances` and `base_attributes` play no part in dispatch and are not
modelled). -/
structure Service where
  methods : List (String × MethodImpl)
  methods_10 : List (String × MethodImpl)
  methods_20 : List (String × MethodImpl)
  last_result : Option JVal

/-- `Service.__init__` with no arguments (source lines 93-102). -/
def Service.init : Service :=
  { methods := [], methods_10 := [], methods_20 := [], last_result := none }

/-- `_register_method` (source lines 167-186) with an explicit name (the
`__name__`-defaulting of the source is bypassed by passing `name`): insert
when the name is absent; the duplicate branch is `pass`, keeping the prior
entry. -/
def _register_method (function : MethodImpl)
    (methods : List (String × MethodImpl)) (name : String) :
    List (String × MethodImpl) :=
  if !(methods.any (fun kv => kv.1 == name)) then
    methods ++ [(name, function)]
  else
    methods

/-- `register_method` (source lines 149-152). -/
def Service.register_method (svc : Service) (function : MethodImpl)
    (name : String) : Service :=
  { svc with methods := _register_method function svc.methods name }

/-- `register_10_method` (source lines 155-158). -/
def Service.register_10_method (svc : Service) (function : MethodImpl)
    (name : String) : Service :=
  { svc with methods_10 := _register_method function svc.methods_10 name }

/-- `register_20_method` (source lines 161-164). -/
def Service.register_20_method (svc : Service) (function : MethodImpl)
    (name : String) : Service :=
  { svc with methods_20 := _register_method function svc.methods_20 name }

/-- `get_method` (source lines 189-192). -/
def Service.get_method (svc : Service) (method : JVal) :
    Except PyExc (Option MethodImpl) :=
  dict_get svc.methods method

/-- `get_10_method` (source lines 195-202): 1.0-only mapping first, then the
common mapping. -/
def Service.get_10_method (svc : Service) (method : JVal) :
    Except PyExc (Option MethodImpl) :=
  match dict_get svc.methods_10 method with
  | .error e => .error e
  | .ok (some ret) => .ok (some ret)
  | .ok none => dict_get svc.methods method

/-- `get_20_method` (source lines 205-212): 2.0-only mapping first, then the
common mapping. -/
def Service.get_20_method (svc : Service) (method : JVal) :
    Except PyExc (Option MethodImpl) :=
  match dict_get svc.methods_20 method with
  | .error e => .error e
  | .ok (some ret) => .ok (some ret)
  | .ok none => dict_get svc.methods method

/-- `json_rpc_20_request` (source lines 307-359).  Two branches reproduce
defects of the source: the `UnicodeEncodeError` handler (line 327) evaluates
the undefined global `INVALID_PARAMS`, raising `NameError`; and the
invalid-params branch (line 335) calls `make_error` with the unexpected
keyword `date`, raising `TypeError`.  In both branches the dict literal
evaluates `req["id"]` before the failing expression, so the subscript is
performed first. -/
def Service.json_rpc_20_request (svc : Service) (req : JVal) :
    Except PyExc JVal :=
  match py_get req "method" (JVal.str "") with
  | .error e => .error e
  | .ok mname =>
  match svc.get_20_method mname with
  | .error e => .error e
  | .ok none =>
    match py_subscript req "id" with
    | .error e => .error e
    | .ok idv =>
      .ok (JVal.obj [("jsonrpc", JVal.str "2.0"), ("id", idv),
        ("error", make_error METHOD_NOT_FOUND
          (some (JVal.str ("method \"" ++ py_format mname ++ "\" not found"))))])
  | .ok (some fn) =>
    match py_get req "params" (JVal.arr []) with
    | .error e => .error e
    | .ok args =>
    match args with
    | .obj kvs =>
      match dict_key_clean kvs with
      | .error _ =>
        match py_subscript req "id" with
        | .error e => .error e
        | .ok _ =>
          .error (.nameError "global name INVALID_PARAMS is not defined")
      | .ok cleaned =>
        match py_apply_kw fn cleaned with
        | .ok res =>
          match py_subscript req "id" with
          | .error e => .error e
          | .ok idv =>
            .ok (JVal.obj [("jsonrpc", JVal.str "2.0"), ("id", idv),
                           ("result", res)])
        | .error e =>
          match py_subscript req "id" with
          | .error e2 => .error e2
          | .ok idv =>
            .ok (JVal.obj [("jsonrpc", JVal.str "2.0"), ("id", idv),
              ("error", make_error INTERNAL_ERROR (some (exc_data e)))])
    | .arr xs =>
      match py_apply_star fn (JVal.arr xs) with
      | .ok res =>
        match py_subscript req "id" with
        | .error e => .error e
        | .ok idv =>
          .ok (JVal.obj [("jsonrpc", JVal.str "2.0"), ("id", idv),
                         ("result", res)])
      | .error e =>
        match py_subscript req "id" with
        | .error e2 => .error e2
        | .ok idv =>
          .ok (JVal.obj [("jsonrpc", JVal.str "2.0"), ("id", idv),
            ("error", make_error INTERNAL_ERROR (some (exc_data e)))])
    | _ =>
      match py_subscript req "id" with
      | .error e => .error e
      | .ok _ =>
        .error (.typeError "make_error got an unexpected keyword argument")

/-- `json_rpc_20_notification` (source lines 362-378): the method lookup sits
outside the protective `try`, the invocation inside it with a bare
`except: pass`, so the call's outcome is discarded. -/
def Service.json_rpc_20_notification (svc : Service) (req : JVal) :
    Except PyExc (Option JVal) :=
  match py_get req "method" (JVal.str "") with
  | .error e => .error e
  | .ok mname =>
  match svc.get_20_method mname with
  | .error e => .error e
  | .ok none => .ok none
  | .ok (some fn) =>
    match py_get req "params" (JVal.arr []) with
    | .error e => .error e
    | .ok args =>
      let _ := match args with
               | .obj kvs => py_apply_kw fn kvs
               | _ => py_apply_star fn args
      .ok none

/-- `json_rpc_10_request` (source lines 381-410): positional binding only
(`fn(*args)` is applied whatever the shape of `params`). -/
def Service.json_rpc_10_request (svc : Service) (req : JVal) :
    Except PyExc JVal :=
  match py_get req "method" (JVal.str "") with
  | .error e => .error e
  | .ok mname =>
  match svc.get_10_method mname with
  | .error e => .error e
  | .ok none =>
    match py_subscript req "id" with
    | .error e => .error e
    | .ok idv =>
      .ok (JVal.obj [("id", idv), ("result", JVal.null),
        ("error", make_error METHOD_NOT_FOUND
          (some (JVal.str ("method \"" ++ py_format mname ++ "\" not found"))))])
  | .ok (some fn) =>
    match py_get req "params" (JVal.arr []) with
    | .error e => .error e
    | .ok args =>
      match py_apply_star fn args with
      | .ok res =>
        match py_subscript req "id" with
        | .error e => .error e
        | .ok idv =>
          .ok (JVal.obj [("id", idv), ("result", res), ("error", JVal.null)])
      | .error e =>
        match py_subscript req "id" with
        | .error e2 => .error e2
        | .ok idv =>
          .ok (JVal.obj [("id", idv), ("result", JVal.null),
            ("error", make_error INTERNAL_ERROR (some (exc_data e)))])

/-- `json_rpc_10_notification` (source lines 413-426). -/
def Service.json_rpc_10_notification (svc : Service) (req : JVal) :
    Except PyExc (Option JVal) :=
  match py_get req "method" (JVal.str "") with
  | .error e => .error e
  | .ok mname =>
  match svc.get_10_method mname with
  | .error e => .error e
  | .ok none => .ok none
  | .ok (some fn) =>
    match py_get req "params" (JVal.arr []) with
    | .error e => .error e
    | .ok args =>
      let _ := py_apply_star fn args
      .ok none

/-- The loop of `json_rpc_20_batch` (source lines 292-299), with the
accumulated responses made explicit. -/
def Service.json_rpc_20_batch_go (svc : Service) (acc : List JVal) :
    List JVal → Except PyExc (List JVal)
  | [] => .ok acc
  | req :: rest =>
    match py_in "id" req with
    | .error e => .error e
    | .ok true =>
      match svc.json_rpc_20_request req with
      | .error e => .error e
      | .ok r => svc.json_rpc_20_batch_go (acc ++ [r]) rest
    | .ok false =>
      match svc.json_rpc_20_notification req with
      | .error e => .error e
      | .ok _ => svc.json_rpc_20_batch_go acc rest

/-- `json_rpc_20_batch` (source lines 290-304): the collected responses when
there is at least one, `None` otherwise. -/
def Service.json_rpc_20_batch (svc : Service) (reqs : List JVal) :
    Except PyExc (Option (List JVal)) :=
  match svc.json_rpc_20_batch_go [] reqs with
  | .error e => .error e
  | .ok ret => if 0 < ret.length then .ok (some ret) else .ok none

/-- `handle_request` (source lines 215-287).  The result is the pair of the
call's outcome (`Except` of an optional response document) and the mutated
service state, whose only mutable field is `last_result`: the slot is cleared
at entry (line 225) and set at line 271 exactly on the paths that fall
through to the encoding step.  Encoding a `JVal` cannot fail, so the rescue
branch at lines 275-285 is unreachable and the document itself is returned. -/
def Service.handle_request (from_json : String → Except PyExc JVal)
    (svc : Service) (json_str : String) :
    Except PyExc (Option JVal) × Service :=
  let svc := { svc with last_result := none }
  match from_json json_str with
  | .error _ =>
    (.ok (some (JVal.obj [("jsonrpc", JVal.str "2.0"),
       ("error", make_error PARSE_ERROR (some (JVal.str json_str)))])), svc)
  | .ok req =>
    match req with
    | .arr reqs =>
      match svc.json_rpc_20_batch reqs with
      | .error e => (.error e, svc)
      | .ok none => (.ok none, svc)
      | .ok (some ret) =>
        let res := JVal.arr ret
        (.ok (some res), { svc with last_result := some res })
    | _ =>
      match py_in "jsonrpc" req with
      | .error e => (.error e, svc)
      | .ok true =>
        match py_subscript req "jsonrpc" with
        | .error e => (.error e, svc)
        | .ok ver =>
          if is_twozero ver then
            match py_in "id" req with
            | .error e => (.error e, svc)
            | .ok true =>
              match svc.json_rpc_20_request req with
              | .error e => (.error e, svc)
              | .ok res => (.ok (some res), { svc with last_result := some res })
            | .ok false =>
              match svc.json_rpc_20_notification req with
              | .error e => (.error e, svc)
              | .ok _ => (.ok none, svc)
          else
            match py_subscript req "id" with
            | .error e => (.error e, svc)
            | .ok idv =>
              let res := JVal.obj [("jsonrpc", ver), ("id", idv),
                ("error", make_error INVALID_REQUEST
                  (some (JVal.str "Bad jsonrpc value")))]
              (.ok (some res), { svc with last_result := some res })
      | .ok false =>
        match py_in "id" req with
        | .error e => (.error e, svc)
        | .ok false =>
          let res := JVal.obj [("result", JVal.null),
            ("error", make_error INVALID_REQUEST
              (some (JVal.str "missing id value")))]
          (.ok (some res), { svc with last_result := some res })
        | .ok true =>
          match py_subscript req "id" with
          | .error e => (.error e, svc)
          | .ok idv =>
            if is_py_none idv then
              match svc.json_rpc_10_notification req with
              | .error e => (.error e, svc)
              | .ok _ => (.ok none, svc)
            else
              match svc.json_rpc_10_request req with
              | .error e => (.error e, svc)
              | .ok res => (.ok (some res), { svc with last_result := some res })

/-- Whether a batch member carries an `id` key (only mappings can). -/
def has_id_key : JVal → Bool
  | .obj kvs => kvs.any (fun kv => kv.1 == "id")
  | _ => false

/-- The response a batch member yields, when its dispatch returns normally
(used to state the batch's ordered-responses property). -/
def dispatch_value (svc : Service) (r : JVal) : JVal :=
  match svc.json_rpc_20_request r with
  | .ok v => v
  | .error _ => JVal.null

/-! ### Concrete fixtures used by witnesses and counterexamples -/

/-- A callable returning the constant 1. -/
def m_one : MethodImpl := fun _ => .ok (JVal.int 1)

/-- A callable returning the constant 2. -/
def m_two : MethodImpl := fun _ => .ok (JVal.int 2)

/-- A callable returning null, registered below under the 2.0 name "f". -/
def m_f : MethodImpl := fun _ => .ok JVal.null

/-- A service with the single 2.0 method "f". -/
def svcF : Service := Service.init.register_20_method m_f "f"

/-- A 2.0 request for "f" whose params mapping has a non-ASCII key. -/
def req_nonascii : JVal :=
  JVal.obj [("jsonrpc", JVal.str "2.0"), ("id", JVal.int 1),
            ("method", JVal.str "f"),
            ("params", JVal.obj [("ÿ", JVal.int 1)])]

/-- A 2.0 request for "f" whose params value is a number. -/
def req_badparams : JVal :=
  JVal.obj [("jsonrpc", JVal.str "2.0"), ("id", JVal.int 1),
            ("method", JVal.str "f"), ("params", JVal.int 5)]

/-! ### Claims -/

/-- C1: the spec says no fault from a registered method, the codec, or the
dispatcher escapes `handle_request`; the code contradicts this intent.  On a
2.0 request for the registered method "f" whose params mapping carries a
non-ASCII key, the `UnicodeEncodeError` handler references the undefined
global `INVALID_PARAMS`, and the resulting `NameError` escapes
`handle_request` as a raised exception. -/
theorem C1_fault_escapes_handle_request :
    (Service.handle_request (fun _ => .ok req_nonascii) svcF
      "\x7b\"jsonrpc\": \"2.0\", \"id\": 1, \"method\": \"f\", \"params\": \x7b\"ÿ\": 1\x7d\x7d").1
      = .error (.nameError "global name INVALID_PARAMS is not defined") := by
  rfl

/-- C2: the claim (and the source's own comment at line 184) says a second
registration under the same name replaces the prior entry; the duplicate
branch of `_register_method` is `pass`, so the FIRST registration is kept:
after registering `m_one` then `m_two` under "m", resolution still returns
`m_one`. -/
theorem C2_second_registration_is_ignored :
    ((Service.init.register_method m_one "m").register_method m_two "m").get_method
        (JVal.str "m") = .ok (some m_one) ∧ m_one ≠ m_two := by
  refine ⟨rfl, fun h => ?_⟩
  have h2 := congrFun h (Call.pos [])
  simp [m_one, m_two] at h2

/-- C3: the claim says a 2.0 request with a non-ASCII params key yields an
INVALID_METHOD_PARAMS error response; instead the handler's reference to the
undefined global `INVALID_PARAMS` (line 327) raises `NameError`, which
escapes the dispatch. -/
theorem C3_nonascii_params_raise_name_error :
    svcF.json_rpc_20_request req_nonascii
      = .error (.nameError "global name INVALID_PARAMS is not defined") := by
  rfl

/-- C4: the claim says a 2.0 request whose params is neither a mapping nor a
sequence yields an INVALID_REQUEST error response; instead the branch at
line 335 calls `make_error` with the misspelled keyword `date`, raising
`TypeError`, which escapes the dispatch. -/
theorem C4_bad_params_shape_raises_type_error :
    svcF.json_rpc_20_request req_badparams
      = .error (.typeError "make_error got an unexpected keyword argument") := by
  rfl

/-- C7: for every 2.0 request whose method resolves and whose invocation
succeeds (params being a sequence, or a mapping with ASCII-encodable keys),
the dispatched response is exactly
`\x7bjsonrpc:"2.0", id:<input id>, result:<return value>\x7d`, the `id`
echoed unchanged for every id value (string, integer, null, ...). -/
theorem C7_response_id_equals_request_id (svc : Service) (req : JVal)
    (mname args idv res : JVal) (fn : MethodImpl)
    (h1 : py_get req "method" (JVal.str "") = .ok mname)
    (h2 : svc.get_20_method mname = .ok (some fn))
    (h3 : py_get req "params" (JVal.arr []) = .ok args)
    (h4 : py_subscript req "id" = .ok idv)
    (h5 : (∃ kvs, args = JVal.obj kvs ∧ dict_key_clean kvs = .ok kvs ∧
             py_apply_kw fn kvs = .ok res) ∨
          (∃ xs, args = JVal.arr xs ∧ py_apply_star fn (JVal.arr xs) = .ok res)) :
    svc.json_rpc_20_request req
      = .ok (JVal.obj [("jsonrpc", JVal.str "2.0"), ("id", idv),
                       ("result", res)]) := by
  rcases h5 with ⟨kvs, rfl, hck, hap⟩ | ⟨xs, rfl, hap⟩
  · simp only [Service.json_rpc_20_request, h1, h2, h3, hck, hap, h4]
  · simp only [Service.json_rpc_20_request, h1, h2, h3, hap, h4]

/-- Witness for C7 at a concrete input: request for "f" with a null id and
empty positional params. -/
theorem C7_response_id_equals_request_id_witness :
    svcF.json_rpc_20_request
        (JVal.obj [("jsonrpc", JVal.str "2.0"), ("id", JVal.null),
                   ("method", JVal.str "f"), ("params", JVal.arr [])])
      = .ok (JVal.obj [("jsonrpc", JVal.str "2.0"), ("id", JVal.null),
                       ("result", JVal.null)]) :=
  C7_response_id_equals_request_id svcF
    (JVal.obj [("jsonrpc", JVal.str "2.0"), ("id", JVal.null),
               ("method", JVal.str "f"), ("params", JVal.arr [])])
    (JVal.str "f") (JVal.arr []) JVal.null JVal.null m_f
    rfl rfl rfl rfl (Or.inr ⟨[], rfl, rfl⟩)

/-- C10: a request carrying an id but no `method` key resolves the empty
string as method name (`req.get("method", "")`); when "" is unregistered the
result, for both dialects, is a METHOD_NOT_FOUND response whose data names
the empty method name — no INVALID_REQUEST, no raised exception. -/
theorem C10_missing_method_resolves_empty_name (svc : Service)
    (req : List (String × JVal)) (idv : JVal)
    (h1 : req.find? (fun kv => kv.1 == "method") = none)
    (h2 : py_subscript (JVal.obj req) "id" = .ok idv)
    (h3 : svc.get_20_method (JVal.str "") = .ok none)
    (h4 : svc.get_10_method (JVal.str "") = .ok none) :
    svc.json_rpc_20_request (JVal.obj req)
      = .ok (JVal.obj [("jsonrpc", JVal.str "2.0"), ("id", idv),
          ("error", make_error METHOD_NOT_FOUND
            (some (JVal.str "method \"\" not found")))]) ∧
    svc.json_rpc_10_request (JVal.obj req)
      = .ok (JVal.obj [("id", idv), ("result", JVal.null),
          ("error", make_error METHOD_NOT_FOUND
            (some (JVal.str "method \"\" not found")))]) := by
  constructor
  · simp only [Service.json_rpc_20_request, py_get, h1, h3, h2]
    rfl
  · simp only [Service.json_rpc_10_request, py_get, h1, h4, h2]
    rfl

/-- Witness for C10 at a concrete input: the one-key mapping with id 3 and
the empty registry. -/
theorem C10_missing_method_resolves_empty_name_witness :
    Service.init.json_rpc_20_request (JVal.obj [("id", JVal.int 3)])
      = .ok (JVal.obj [("jsonrpc", JVal.str "2.0"), ("id", JVal.int 3),
          ("error", make_error METHOD_NOT_FOUND
            (some (JVal.str "method \"\" not found")))]) ∧
    Service.init.json_rpc_10_request (JVal.obj [("id", JVal.int 3)])
      = .ok (JVal.obj [("id", JVal.int 3), ("result", JVal.null),
          ("error", make_error METHOD_NOT_FOUND
            (some (JVal.str "method \"\" not found")))]) :=
  C10_missing_method_resolves_empty_name Service.init [("id", JVal.int 3)]
    (JVal.int 3) rfl rfl rfl rfl

/-- If a key lookup succeeds on a dict, the membership test for that key is
true. -/
theorem any_of_find?_eq_some {kvs : List (String × JVal)} {key : String}
    {kv : String × JVal}
    (h : kvs.find? (fun kv => kv.1 == key) = some kv) :
    kvs.any (fun kv => kv.1 == key) = true := by
  have hp := List.find?_some h
  exact List.any_eq_true.mpr ⟨kv, List.mem_of_find?_eq_some h, hp⟩

/-- A successful subscript on a dict implies a true membership test. -/
theorem any_of_py_subscript_ok {kvs : List (String × JVal)} {key : String}
    {v : JVal} (h : py_subscript (JVal.obj kvs) key = .ok v) :
    kvs.any (fun kv => kv.1 == key) = true := by
  simp only [py_subscript] at h
  cases hf : kvs.find? (fun kv => kv.1 == key) with
  | none => rw [hf] at h; cases h
  | some kv => exact any_of_find?_eq_some hf

/-- `d.get(k, None)` returns normally on every hashable key. -/
theorem dict_get_ok_of_hashable (d : List (String × MethodImpl)) (k : JVal)
    (h : hashable k = true) : ∃ o, dict_get d k = .ok o := by
  cases k with
  | arr xs => simp [hashable] at h
  | obj kvs => simp [hashable] at h
  | null => exact ⟨none, rfl⟩
  | bool b => exact ⟨none, rfl⟩
  | int n => exact ⟨none, rfl⟩
  | str s => exact ⟨_, rfl⟩

/-- `get_20_method` returns normally on every hashable method value. -/
theorem get_20_method_ok_of_hashable (svc : Service) (k : JVal)
    (h : hashable k = true) : ∃ o, svc.get_20_method k = .ok o := by
  obtain ⟨o1, h1⟩ := dict_get_ok_of_hashable svc.methods_20 k h
  cases o1 with
  | some fn => exact ⟨some fn, by simp [Service.get_20_method, h1]⟩
  | none =>
    obtain ⟨o2, h2⟩ := dict_get_ok_of_hashable svc.methods k h
    exact ⟨o2, by simp [Service.get_20_method, h1, h2]⟩

/-- C6 (amended): for every mapping with a `jsonrpc` value other than "2.0"
AND an `id` key present, `handle_request` returns the INVALID_REQUEST
response echoing the unrecognized version value and the original id, for
every registry (so no method is resolved or invoked).  When the `id` key is
absent the claim fails: line 253 evaluates `req["id"]` and the `KeyError`
escapes (see the counterexample). -/
theorem C6_unrecognized_version_echoed
    (from_json : String → Except PyExc JVal) (svc : Service) (s : String)
    (req : List (String × JVal)) (ver idv : JVal)
    (h1 : from_json s = .ok (JVal.obj req))
    (h2 : py_subscript (JVal.obj req) "jsonrpc" = .ok ver)
    (h3 : is_twozero ver = false)
    (h4 : py_subscript (JVal.obj req) "id" = .ok idv) :
    Service.handle_request from_json svc s
      = (.ok (some (JVal.obj [("jsonrpc", ver), ("id", idv),
            ("error", make_error INVALID_REQUEST
              (some (JVal.str "Bad jsonrpc value")))])),
         { svc with last_result := some (JVal.obj [("jsonrpc", ver), ("id", idv),
            ("error", make_error INVALID_REQUEST
              (some (JVal.str "Bad jsonrpc value")))]) }) := by
  have hany := any_of_py_subscript_ok h2
  simp [Service.handle_request, h1, py_in, hany, h2, h3, h4]

/-- Witness for C6 at a concrete input: version "1.5", id 7. -/
theorem C6_unrecognized_version_echoed_witness :
    Service.handle_request
        (fun _ => .ok (JVal.obj [("jsonrpc", JVal.str "1.5"), ("id", JVal.int 7)]))
        Service.init "x"
      = (.ok (some (JVal.obj [("jsonrpc", JVal.str "1.5"), ("id", JVal.int 7),
            ("error", make_error INVALID_REQUEST
              (some (JVal.str "Bad jsonrpc value")))])),
         { Service.init with last_result := some (JVal.obj
            [("jsonrpc", JVal.str "1.5"), ("id", JVal.int 7),
              ("error", make_error INVALID_REQUEST
                (some (JVal.str "Bad jsonrpc value")))]) }) :=
  C6_unrecognized_version_echoed
    (fun _ => .ok (JVal.obj [("jsonrpc", JVal.str "1.5"), ("id", JVal.int 7)]))
    Service.init "x" [("jsonrpc", JVal.str "1.5"), ("id", JVal.int 7)]
    (JVal.str "1.5") (JVal.int 7) rfl rfl rfl rfl

/-- C6 counterexample: on the mapping with jsonrpc "1.5" and NO id key,
`handle_request` does not produce a response at all — line 253 raises
`KeyError` — refuting the claim for id-less mappings. -/
theorem C6_version_without_id_raises_key_error :
    (Service.handle_request
        (fun _ => .ok (JVal.obj [("jsonrpc", JVal.str "1.5")]))
        Service.init "x").1
      = .error (.keyError "id") := by
  rfl

/-- `v.get(key, dflt)` on a dict always returns normally. -/
theorem py_get_obj_ok (kvs : List (String × JVal)) (key : String) (dflt : JVal) :
    ∃ a, py_get (JVal.obj kvs) key dflt = .ok a := by
  simp only [py_get]
  cases kvs.find? (fun kv => kv.1 == key) <;> exact ⟨_, rfl⟩

/-- C8 (amended): for every 2.0 notification (mapping with jsonrpc "2.0" and
no `id` key) whose `method` value is hashable (absent, a string, a number,
or null — anything but an array or object), `handle_request` produces no
response and surfaces no error, whatever the registry: the method may be
unregistered, or registered and succeed, or registered and raise — the
outcome is discarded.  With an array or object as `method` value the claim
fails: the lookup at line 364 sits outside the protective `try` and its
`TypeError` escapes (see the counterexample). -/
theorem C8_notification_produces_nothing
    (from_json : String → Except PyExc JVal) (svc : Service) (s : String)
    (req : List (String × JVal)) (mname : JVal)
    (h1 : from_json s = .ok (JVal.obj req))
    (h2 : py_subscript (JVal.obj req) "jsonrpc" = .ok (JVal.str "2.0"))
    (h3 : req.any (fun kv => kv.1 == "id") = false)
    (h4 : py_get (JVal.obj req) "method" (JVal.str "") = .ok mname)
    (h5 : hashable mname = true) :
    Service.handle_request from_json svc s
      = (.ok none, { svc with last_result := none }) := by
  have hnot : ∀ t : Service, t.methods_20 = svc.methods_20 →
      t.methods = svc.methods →
      t.json_rpc_20_notification (JVal.obj req) = .ok none := by
    intro t ht20 htc
    obtain ⟨o, ho⟩ := get_20_method_ok_of_hashable t mname h5
    cases o with
    | none => simp [Service.json_rpc_20_notification, h4, ho]
    | some fn =>
      obtain ⟨a, ha⟩ := py_get_obj_ok req "params" (JVal.arr [])
      simp [Service.json_rpc_20_notification, h4, ho, ha]
  have hany := any_of_py_subscript_ok h2
  have hn := hnot { svc with last_result := none } rfl rfl
  simp [Service.handle_request, h1, py_in, hany, h2, h3, hn, is_twozero]

/-- Witness for C8 at a concrete input: notification for the unregistered
method "g" against the empty registry. -/
theorem C8_notification_produces_nothing_witness :
    Service.handle_request
        (fun _ => .ok (JVal.obj [("jsonrpc", JVal.str "2.0"),
                                 ("method", JVal.str "g")]))
        Service.init "x"
      = (.ok none, { Service.init with last_result := none }) :=
  C8_notification_produces_nothing
    (fun _ => .ok (JVal.obj [("jsonrpc", JVal.str "2.0"),
                             ("method", JVal.str "g")]))
    Service.init "x" [("jsonrpc", JVal.str "2.0"), ("method", JVal.str "g")]
    (JVal.str "g") rfl rfl rfl rfl rfl

/-- C8 counterexample: the 2.0 notification whose `method` value is a list
(an unregistered method) makes `handle_request` raise `TypeError` — the
dict lookup with an unhashable key happens outside the notification's
`try` — refuting "no error surfaced" for arbitrary notifications. -/
theorem C8_unhashable_method_raises :
    (Service.handle_request
        (fun _ => .ok (JVal.obj [("jsonrpc", JVal.str "2.0"),
                                 ("method", JVal.arr [])]))
        Service.init "x").1
      = .error (.typeError "unhashable type: list") := by
  rfl

/-- The batch loop, run on members that all dispatch normally, appends one
response per id-bearing member to the accumulator, in source order. -/
theorem batch_go_ok (svc : Service) (reqs : List JVal) :
    ∀ acc : List JVal,
    (∀ r ∈ reqs, ∃ kvs, r = JVal.obj kvs) →
    (∀ r ∈ reqs, has_id_key r = true →
       ∃ v, svc.json_rpc_20_request r = .ok v) →
    (∀ r ∈ reqs, has_id_key r = false →
       ∃ o, svc.json_rpc_20_notification r = .ok o) →
    svc.json_rpc_20_batch_go acc reqs
      = .ok (acc ++ (reqs.filter has_id_key).map (dispatch_value svc)) := by
  induction reqs with
  | nil => intro acc _ _ _; simp [Service.json_rpc_20_batch_go]
  | cons r rest ih =>
    intro acc h1 h2 h3
    obtain ⟨kvs, rfl⟩ := h1 r (by simp)
    have hin : py_in "id" (JVal.obj kvs)
        = .ok (has_id_key (JVal.obj kvs)) := rfl
    cases hid : has_id_key (JVal.obj kvs) with
    | true =>
      obtain ⟨v, hv⟩ := h2 _ (by simp) hid
      have hdv : dispatch_value svc (JVal.obj kvs) = v := by
        simp [dispatch_value, hv]
      simp only [Service.json_rpc_20_batch_go, hin, hid, hv]
      rw [ih (acc ++ [v]) (fun r hr => h1 r (by simp [hr]))
            (fun r hr => h2 r (by simp [hr]))
            (fun r hr => h3 r (by simp [hr]))]
      simp [List.filter_cons, hid, hdv]
    | false =>
      obtain ⟨o, ho⟩ := h3 _ (by simp) hid
      simp only [Service.json_rpc_20_batch_go, hin, hid, ho]
      rw [ih acc (fun r hr => h1 r (by simp [hr]))
            (fun r hr => h2 r (by simp [hr]))
            (fun r hr => h3 r (by simp [hr]))]
      simp [List.filter_cons, hid]

/-- C5 (amended): for every batch of mapping members each of whose dispatches
returns normally (no member hits the raising params-validation paths or an
unhashable method name), the batch result is no response exactly when no
member bears an `id` (including the empty batch), and otherwise the ordered
list of the id-bearing members' responses, one per member, in source order.
A member whose dispatch raises makes the whole batch raise instead (see the
counterexample). -/
theorem C5_batch_responses_ordered (svc : Service) (reqs : List JVal)
    (h1 : ∀ r ∈ reqs, ∃ kvs, r = JVal.obj kvs)
    (h2 : ∀ r ∈ reqs, has_id_key r = true →
       ∃ v, svc.json_rpc_20_request r = .ok v)
    (h3 : ∀ r ∈ reqs, has_id_key r = false →
       ∃ o, svc.json_rpc_20_notification r = .ok o) :
    svc.json_rpc_20_batch reqs
      = .ok (if (reqs.filter has_id_key).isEmpty then none
             else some ((reqs.filter has_id_key).map (dispatch_value svc))) := by
  simp only [Service.json_rpc_20_batch, batch_go_ok svc reqs [] h1 h2 h3,
             List.nil_append]
  cases hf : reqs.filter has_id_key with
  | nil => simp [hf]
  | cons a l => simp [hf]

/-- Witness for C5 at a concrete input: one request (unknown method, so a
METHOD_NOT_FOUND response) followed by one notification; the batch yields
exactly one response, the request's, in order. -/
theorem C5_batch_responses_ordered_witness :
    Service.init.json_rpc_20_batch
        [JVal.obj [("jsonrpc", JVal.str "2.0"), ("id", JVal.int 1),
                   ("method", JVal.str "g")],
         JVal.obj [("jsonrpc", JVal.str "2.0"), ("method", JVal.str "g")]]
      = .ok (some [JVal.obj [("jsonrpc", JVal.str "2.0"), ("id", JVal.int 1),
          ("error", make_error METHOD_NOT_FOUND
            (some (JVal.str "method \"g\" not found")))]]) := by
  have h := C5_batch_responses_ordered Service.init
    [JVal.obj [("jsonrpc", JVal.str "2.0"), ("id", JVal.int 1),
               ("method", JVal.str "g")],
     JVal.obj [("jsonrpc", JVal.str "2.0"), ("method", JVal.str "g")]]
    (by intro r hr
        simp only [List.mem_cons, List.not_mem_nil, or_false] at hr
        rcases hr with rfl | rfl <;> exact ⟨_, rfl⟩)
    (by intro r hr hid
        simp only [List.mem_cons, List.not_mem_nil, or_false] at hr
        rcases hr with rfl | rfl
        · exact ⟨_, rfl⟩
        · exact Bool.noConfusion hid)
    (by intro r hr hid
        simp only [List.mem_cons, List.not_mem_nil, or_false] at hr
        rcases hr with rfl | rfl
        · exact Bool.noConfusion hid
        · exact ⟨none, rfl⟩)
  exact h.trans (by rfl)

/-- C5 counterexample: a batch whose single member is a request (it bears an
id) for the registered method "f" with string params: the claim demands a
one-element response sequence, but the member's dispatch raises (the
params-validation defect at line 335) and the whole batch call raises. -/
theorem C5_member_dispatch_raises :
    svcF.json_rpc_20_batch
        [JVal.obj [("jsonrpc", JVal.str "2.0"), ("id", JVal.int 1),
                   ("method", JVal.str "f"), ("params", JVal.str "x")]]
      = .error (.typeError "make_error got an unexpected keyword argument") := by
  rfl

/-- C9 (amended): `handle_request` clears the `last_result` slot at its
start (the outcome is independent of the slot's prior value, and every
raising path leaves it cleared); and for every input that decodes
successfully, after the call `last_result` holds exactly the response
document the call produced — some response iff the slot holds it, none when
no response was produced.  The claim's "exactly when" fails on inputs that
do NOT decode: the parse-error path (lines 230-236) returns a PARSE_ERROR
response without recording it, leaving `last_result` empty (see the
counterexample). -/
theorem C9_last_result_tracks_response
    (from_json : String → Except PyExc JVal) (svc : Service) (s : String)
    (v : JVal) (h : from_json s = .ok v) :
    (∀ r0 : Option JVal,
       Service.handle_request from_json { svc with last_result := r0 } s
         = Service.handle_request from_json svc s) ∧
    ((Service.handle_request from_json svc s).2).last_result
      = (match (Service.handle_request from_json svc s).1 with
         | .ok (some r) => some r
         | _ => none) := by
  constructor
  · intro r0; rfl
  · simp only [Service.handle_request, h]
    cases v <;> (repeat' split) <;> simp_all

/-- Witness for C9 at a concrete input: a 2.0 notification, so the call
produces no response and `last_result` stays empty. -/
theorem C9_last_result_tracks_response_witness :
    ((Service.handle_request
        (fun _ => .ok (JVal.obj [("jsonrpc", JVal.str "2.0"),
                                 ("method", JVal.str "g")]))
        Service.init "x").2).last_result
      = (match (Service.handle_request
            (fun _ => .ok (JVal.obj [("jsonrpc", JVal.str "2.0"),
                                     ("method", JVal.str "g")]))
            Service.init "x").1 with
         | .ok (some r) => some r
         | _ => none) :=
  (C9_last_result_tracks_response
    (fun _ => .ok (JVal.obj [("jsonrpc", JVal.str "2.0"),
                             ("method", JVal.str "g")]))
    Service.init "x"
    (JVal.obj [("jsonrpc", JVal.str "2.0"), ("method", JVal.str "g")])
    rfl).2

/-- C9 counterexample: on input that fails to decode, the call produces the
PARSE_ERROR response but `last_result` is left empty, refuting "holds none
exactly when the call produced no response". -/
theorem C9_parse_error_response_not_recorded :
    (Service.handle_request (fun t => .error (.valueError t))
        Service.init "notjson").1
      = .ok (some (JVal.obj [("jsonrpc", JVal.str "2.0"),
          ("error", make_error PARSE_ERROR (some (JVal.str "notjson")))])) ∧
    ((Service.handle_request (fun t => .error (.valueError t))
        Service.init "notjson").2).last_result = none :=
  ⟨rfl, rfl⟩
